import Mathlib

/-! The exception server of the integration tests of conjure-java-runtime.

Shallow embedding of `exceptionserver/server.go`: the error values the
scenario functions build, the `writeJSON` serializer and the handlers
registered on the mux.  Library code the server calls (`errors`, `stacktrace`,
`encoding/json`, `net/http`, `fmt`, `runtime`) is not part of the server
source; each model of it below says so in its doc comment.  Go strings and byte
slices are Lean strings, and the Go `int` of a status code is an integer.
-/

namespace ExceptionServer

/-! Error values -/

/-- Go `error` values the server can build: the base error of `errors.New`
and the `stacktrace` value of the library, with its fields `message`, `cause`,
`file`, `function` and `line`; its error code plays no part in the text of
`Error()` and is left out. -/
inductive GoError where
  | errorsNew (text : String)
  | stacktrace (message : String) (cause : GoError) (file : String) (function : String)
      (line : Nat)
  deriving DecidableEq, Repr

/-- What `runtime.Caller` reports to `Propagate` about its call site: the path
of the source file, the line of the call and the short name of the calling
function.  An empty `file` stands for a caller that could not be found. -/
structure Caller where
  file : String
  line : Nat
  function : String
  deriving DecidableEq, Repr

/-- Library code, not part of the server source: `stacktrace.Propagate` on a
cause that is not nil returns a new `stacktrace` value with the message, the
unchanged cause and the call site.  The message is `fmt.Sprintf(msg)`, which is
`msg` itself when it holds no `%`, as in every call of the server. -/
def Propagate (cause : GoError) (msg : String) (caller : Caller) : GoError :=
  GoError.stacktrace msg cause caller.file caller.function caller.line

/-- Library code, not part of the server source: the helper `newline` of the
full format ends the text with a line break unless it is empty or already ends
with one. -/
def newline (str : String) : String :=
  if str ≠ "" ∧ str.toList.getLast? ≠ some (Char.ofNat 10) then str ++ "\n" else str

/-- Library code, not part of the server source: the location line of a frame,
`" --- at file:line (function) ---"`, without the function when it is unknown. -/
def location (file : String) (line : Nat) (function : String) : String :=
  if function = "" then " --- at " ++ file ++ ":" ++ toString line ++ " ---"
  else " --- at " ++ file ++ ":" ++ toString line ++ " (" ++ function ++ ") ---"

/-- Library code, not part of the server source: the loop of the full format
over the frames of a chain, from the current frame on, with the text built so
far.  Each frame adds its message, its location line when the file is known,
and `Caused by: ` before a cause that is no `stacktrace` value (followed by
its `Error()`, which ends the loop) or that is one with a message. -/
def formatFullFrom (str : String) : GoError → String
  | GoError.errorsNew _ => str
  | GoError.stacktrace message cause file function line =>
    let str := str ++ message
    let str := if file ≠ "" then newline str ++ location file line function else str
    let str := newline str
    match cause with
    | GoError.errorsNew text => str ++ "Caused by: " ++ text
    | GoError.stacktrace causeMessage _ _ _ _ =>
      formatFullFrom (if causeMessage ≠ "" then str ++ "Caused by: " else str) cause

/-- Library code, not part of the server source: the full format of a
`stacktrace` value, the default format of the library. -/
def formatFull (st : GoError) : String :=
  formatFullFrom "" st

/-- The method `Error()` of an `error` value: the text given to `errors.New`
for a base error; for a `stacktrace` value the default format of the library,
which is the full format, as the server never selects another. -/
def GoError.Error : GoError → String
  | GoError.errorsNew text => text
  | GoError.stacktrace message cause file function line =>
    formatFull (GoError.stacktrace message cause file function line)

/-- Frame messages of a chain, outermost first. -/
def frameMessages : GoError → List String
  | GoError.errorsNew _ => []
  | GoError.stacktrace message cause _ _ _ => message :: frameMessages cause

/-- Root cause of a chain: the text of the innermost, unwrapped error. -/
def rootCause : GoError → String
  | GoError.errorsNew text => text
  | GoError.stacktrace _ cause _ _ _ => rootCause cause

/-- Modelled from the spec: the rendering `render` of the specification, which
is not what `Error()` computes.  Walk the frames outer to inner, keep every
non-empty message, and join them with `": "`, followed by the root cause
string. -/
def render (e : GoError) : String :=
  ": ".intercalate ((frameMessages e).filter (fun m => m ≠ "") ++ [rootCause e])

/-! Scenario functions.  Each takes the path of `server.go` as the runtime
reports it; the lines are those of the calls of `Propagate` in the source. -/

def simpleStackTraceError (file : String) : GoError :=
  let err := GoError.errorsNew "errors.New error message"
  Propagate err "simpleError error message" ⟨file, 65, "simpleStackTraceError"⟩

def outerStackTraceError (file : String) : GoError :=
  let err := simpleStackTraceError file
  Propagate err "outerError error message" ⟨file, 70, "outerStackTraceError"⟩

def noMessageStackTraceError (file : String) : GoError :=
  let err := GoError.errorsNew "errors.New error message"
  Propagate err "" ⟨file, 75, "noMessageStackTraceError"⟩

def outerNoMessageStackTraceError (file : String) : GoError :=
  let err := noMessageStackTraceError file
  Propagate err "" ⟨file, 80, "outerNoMessageStackTraceError"⟩

/-- The type `TestInterface`, a named string type. -/
structure TestInterface where
  val : String
  deriving DecidableEq, Repr

def TestInterface.interfaceError (_t : TestInterface) (file : String) : GoError :=
  let err := GoError.errorsNew "errors.New error message"
  Propagate err "interface method error" ⟨file, 116, "TestInterface.interfaceError"⟩

def interfaceFunctionStackTraceError (file : String) : GoError :=
  let testInterface := TestInterface.mk "foo"
  Propagate (testInterface.interfaceError file) ""
    ⟨file, 85, "interfaceFunctionStackTraceError"⟩

def nativeError : GoError :=
  GoError.errorsNew "errors.New error message"

/-! JSON encoding -/

/-- Dynamic values handed to `writeJSON` as `interface{}`: a string, an
`error`, or a value of any other type.  The JSON codec is a black box for the
other types, so such a value is given by what `json.Marshal` returns for it:
its encoding, or the description of the error that rejects it. -/
inductive GoValue where
  | string (s : String)
  | error (err : GoError)
  | other (encoding : String)
  | unmarshalable (description : String)
  deriving DecidableEq, Repr

/-- Lower-case hexadecimal digit of a number below 16. -/
def hexDigit (n : Nat) : Char :=
  if n < 10 then Char.ofNat (48 + n) else Char.ofNat (87 + n)

/-- Modelled from the spec: the escape `encoding/json` (library code, absent
from the server source) writes for one character of a string: quote and
backslash get a backslash, control characters and the HTML characters
`<`, `>`, `&` a short or `\u00XX` escape, the line separators U+2028 and
U+2029 a `\u` escape, every other character stands for itself. -/
def jsonEscapeChar (c : Char) : String :=
  if c = Char.ofNat 34 ∨ c = Char.ofNat 92 then String.mk [Char.ofNat 92, c]
  else if c = Char.ofNat 8 then "\\b"
  else if c = Char.ofNat 12 then "\\f"
  else if c = Char.ofNat 10 then "\\n"
  else if c = Char.ofNat 13 then "\\r"
  else if c = Char.ofNat 9 then "\\t"
  else if c.toNat < 32 ∨ c = Char.ofNat 60 ∨ c = Char.ofNat 62 ∨ c = Char.ofNat 38 then
    "\\u00" ++ String.mk [hexDigit (c.toNat / 16), hexDigit (c.toNat % 16)]
  else if c = Char.ofNat 8232 then "\\u2028"
  else if c = Char.ofNat 8233 then "\\u2029"
  else String.singleton c

/-- Modelled from the spec: a string maps to a JSON string literal, the
escaped characters between two double quotes. -/
def jsonString (s : String) : String :=
  String.singleton (Char.ofNat 34) ++ String.join (s.toList.map jsonEscapeChar)
    ++ String.singleton (Char.ofNat 34)

/-- Modelled from the spec: `json.Marshal` (library code, absent from the
server source), returning the encoded bytes or the description of the
encoding error.  A string always encodes, as a JSON string literal; an `error`
value handed over as it is has no exported field and encodes as an empty
object; the other values carry their own result. -/
def jsonMarshal : GoValue → Except String String
  | GoValue.string s => Except.ok (jsonString s)
  | GoValue.error _ => Except.ok "{}"
  | GoValue.other encoding => Except.ok encoding
  | GoValue.unmarshalable description => Except.error description

/-! The response writer and standard output -/

def StatusOK : Int := 200

def StatusInternalServerError : Int := 500

/-- Modelled from the spec: the `http.ResponseWriter` of one request (library
code, absent from the server source): the header map, the status code once
sent, the body bytes the connection accepted, and the error every `Write` on
the underlying connection returns when it is broken. -/
structure ResponseWriter where
  header : List (String × String)
  status : Option Int
  body : String
  connErr : Option String
  deriving DecidableEq, Repr

/-- The writer a handler receives for a new request on a healthy or broken
connection. -/
def ResponseWriter.fresh (connErr : Option String) : ResponseWriter :=
  { header := [], status := none, body := "", connErr := connErr }

/-- The call `w.Header().Set(key, value)`: the value replaces any earlier one. -/
def ResponseWriter.headerSet (w : ResponseWriter) (key value : String) : ResponseWriter :=
  { w with header := (key, value) :: w.header.filter (fun kv => kv.1 ≠ key) }

/-- The call `w.Header().Get(key)`. -/
def ResponseWriter.headerGet (w : ResponseWriter) (key : String) : Option String :=
  w.header.lookup key

/-- The call `w.WriteHeader(code)`: sends the status, once; a status that was
already sent stays. -/
def ResponseWriter.WriteHeader (w : ResponseWriter) (code : Int) : ResponseWriter :=
  match w.status with
  | none => { w with status := some code }
  | some _ => w

/-- The call `w.Write(data)`: sends status 200 first when none was sent, then
hands the bytes to the connection, which takes them or returns its error. -/
def ResponseWriter.Write (w : ResponseWriter) (data : String) :
    ResponseWriter × Option String :=
  let w := w.WriteHeader StatusOK
  match w.connErr with
  | none => ({ w with body := w.body ++ data }, none)
  | some e => (w, some e)

/-- Modelled from the spec: `http.Error` (library code, absent from the server
source) replies with the given status and the message as a plain-text
body, one line. -/
def httpError (w : ResponseWriter) (error : String) (code : Int) : ResponseWriter :=
  let w := w.headerSet "Content-Type" "text/plain; charset=utf-8"
  let w := w.headerSet "X-Content-Type-Options" "nosniff"
  let w := w.WriteHeader code
  (w.Write (error ++ "\n")).1

/-- The calls the server code makes on the response of a request. -/
inductive Call where
  | headerSet (key value : String)
  | writeHeader (code : Int)
  | write (data : String)
  | httpError (error : String) (code : Int)
  deriving DecidableEq, Repr

/-- Everything a handler can act on: the response writer of the request and the
standard output of the process, with the record of the calls the server code
made on the response, oldest first. -/
structure Effects where
  w : ResponseWriter
  stdout : String
  calls : List Call
  deriving DecidableEq, Repr

/-- The server calls `w.Header().Set(key, value)`. -/
def Effects.HeaderSet (fx : Effects) (key value : String) : Effects :=
  { fx with w := fx.w.headerSet key value, calls := fx.calls ++ [Call.headerSet key value] }

/-- The server calls `w.WriteHeader(code)`. -/
def Effects.WriteHeader (fx : Effects) (code : Int) : Effects :=
  { fx with w := fx.w.WriteHeader code, calls := fx.calls ++ [Call.writeHeader code] }

/-- The server calls `w.Write(data)` and gets the error back, if any. -/
def Effects.Write (fx : Effects) (data : String) : Effects × Option String :=
  ({ fx with w := (fx.w.Write data).1, calls := fx.calls ++ [Call.write data] },
    (fx.w.Write data).2)

/-- The server calls `http.Error(w, error, code)`. -/
def Effects.httpError (fx : Effects) (error : String) (code : Int) : Effects :=
  { fx with w := ExceptionServer.httpError fx.w error code,
            calls := fx.calls ++ [Call.httpError error code] }

/-- The call `fmt.Println(s)`: the text and a newline go to standard output. -/
def Effects.Println (fx : Effects) (s : String) : Effects :=
  { fx with stdout := fx.stdout ++ s ++ "\n" }

/-- The call `fmt.Errorf("Failed to write response %v to the caller", data)`:
it builds an error value and writes nothing anywhere. -/
def fmtErrorfFailedToWrite (data : String) : GoError :=
  GoError.errorsNew ("Failed to write response " ++ data ++ " to the caller")

/-! writeJSON -/

def writeJSON (fx : Effects) (obj : GoValue) (status : Int) : Effects :=
  let (fx, obj) :=
    match obj with
    | GoValue.error err => (fx.Println "inside error", GoValue.string err.Error)
    | _ => (fx, obj)
  match jsonMarshal obj with
  | Except.error err =>
    let fx := fx.Println "inside error 2"
    fx.httpError err StatusInternalServerError
  | Except.ok data =>
    let fx := fx.HeaderSet "Content-Type" "application/json"
    let fx := fx.WriteHeader status
    match fx.Write data with
    | (fx, some _) =>
      -- cannot report to client due to socket failure
      let _unused := fmtErrorfFailedToWrite data
      fx
    | (fx, none) => fx

/-- The value `writeJSON` encodes: the text of `Error()` for an `error`, the
value itself otherwise. -/
def resolved : GoValue → GoValue
  | GoValue.error err => GoValue.string err.Error
  | obj => obj

/-! Handlers -/

/-- What running a handler leaves behind: the effects it had, and the value of
the panic that escaped it, if one did. -/
structure Outcome where
  fx : Effects
  panicked : Option String
  deriving DecidableEq, Repr

/-- A handler function; none of the handlers reads the request. -/
abbrev Handler := Effects → Outcome

def handleOk : Handler := fun fx =>
  let value := "hello, world!"
  { fx := writeJSON fx (GoValue.string value) StatusOK, panicked := none }

def handleSimpleStackTraceError (file : String) : Handler := fun fx =>
  let err := simpleStackTraceError file
  { fx := writeJSON fx (GoValue.error err) StatusInternalServerError, panicked := none }

def handleNestedStackTraceError (file : String) : Handler := fun fx =>
  let err := outerStackTraceError file
  { fx := writeJSON fx (GoValue.error err) StatusInternalServerError, panicked := none }

def handleNestedNoMessageStackTraceError (file : String) : Handler := fun fx =>
  let err := outerNoMessageStackTraceError file
  { fx := writeJSON fx (GoValue.error err) StatusInternalServerError, panicked := none }

def handleInterfaceFunctionStackTraceError (file : String) : Handler := fun fx =>
  let err := interfaceFunctionStackTraceError file
  { fx := writeJSON fx (GoValue.error err) StatusInternalServerError, panicked := none }

def handleNativeError : Handler := fun fx =>
  let err := nativeError
  { fx := writeJSON fx (GoValue.error err) StatusInternalServerError, panicked := none }

def handlePanic : Handler := fun fx =>
  { fx := fx, panicked := some "panicking in the server" }

/-- The patterns registered on the mux in `main`, with their handlers. -/
def mux (file : String) : List (String × Handler) :=
  [("/ok", handleOk),
   ("/simpleStackTraceError", handleSimpleStackTraceError file),
   ("/nestedStackTraceError", handleNestedStackTraceError file),
   ("/nestedNoMessageStackTraceError", handleNestedNoMessageStackTraceError file),
   ("/interfaceFunctionStackTraceError", handleInterfaceFunctionStackTraceError file),
   ("/nativeError", handleNativeError),
   ("/panic", handlePanic)]

/-- Serve a request for a registered path on a new response writer, with the
standard output and the record of calls empty; `file` is the path of
`server.go` as the runtime reports it. -/
def serve (file : String) (path : String) (connErr : Option String) : Option Outcome :=
  ((mux file).lookup path).map
    (fun h => h { w := ResponseWriter.fresh connErr, stdout := "", calls := [] })

/-! Helpers for the statements -/

/-- A cause wrapped by `Propagate` with the same message once for every call
site of the list, the first of the list outermost. -/
def propagateAll (cause : GoError) (msg : String) : List Caller → GoError
  | [] => cause
  | caller :: callers => Propagate (propagateAll cause msg callers) msg caller

/-- The location lines of the call sites of a list, each with its line break. -/
def locationLines : List Caller → String
  | [] => ""
  | caller :: callers =>
    location caller.file caller.line caller.function ++ "\n" ++ locationLines callers

/-- The effects once the type switch at the head of `writeJSON` is done: an
`error` value has printed its line, any other value nothing. -/
def afterTypeSwitch (fx : Effects) : GoValue → Effects
  | GoValue.error _ => fx.Println "inside error"
  | _ => fx

/-! Lemmas on the full format -/

theorem newline_append (s m : String) (hm : m ≠ "") : newline (s ++ m) = s ++ newline m := by
  have hdata : m.data ≠ [] := fun h => hm (String.ext h)
  have hne : s ++ m ≠ "" := by
    intro h
    have := congrArg String.data h
    simp [hdata] at this
  have hlast : (s ++ m).toList.getLast? = m.toList.getLast? := by
    simp [String.toList, List.getLast?_append, hdata]
    cases hm' : m.data.getLast? with
    | none => simp [List.getLast?_eq_none_iff] at hm'; exact absurd hm' hdata
    | some c => simp
  unfold newline
  simp only [hlast, hne, hm, ne_eq, not_false_eq_true, true_and]
  split <;> simp [String.append_assoc]

theorem location_ne_empty (file : String) (line : Nat) (function : String) :
    location file line function ≠ "" := by
  intro h
  have := congrArg String.data h
  unfold location at this
  split at this <;> simp at this

theorem newline_location (file : String) (line : Nat) (function : String) :
    newline (location file line function) = location file line function ++ "\n" := by
  have h1 : newline " ---" = " ---" ++ "\n" := by decide
  have h2 : newline ") ---" = ") ---" ++ "\n" := by decide
  unfold location
  split
  · rw [newline_append _ _ (by decide), h1]
    simp only [String.append_assoc]
  · rw [newline_append _ _ (by decide), h2]
    simp only [String.append_assoc]

theorem newline_nl_end (s : String) : newline (s ++ "\n") = s ++ "\n" := by
  rw [newline_append _ _ (by decide)]
  have : newline "\n" = "\n" := by decide
  rw [this]

/-- One step of the loop on a frame whose cause is a base error. -/
theorem formatFullFrom_leaf (str message text file function : String) (line : Nat)
    (hfile : file ≠ "") :
    formatFullFrom str (GoError.stacktrace message (GoError.errorsNew text) file function line)
      = newline (str ++ message) ++ location file line function ++ "\n" ++ "Caused by: "
          ++ text := by
  simp only [formatFullFrom, hfile, ne_eq, not_false_eq_true, if_true,
    newline_append _ _ (location_ne_empty file line function), newline_location]
  simp only [String.append_assoc]

/-- One step of the loop on a frame whose cause is a frame again. -/
theorem formatFullFrom_frame (str message file function : String) (line : Nat)
    (m : String) (c : GoError) (f fn : String) (l : Nat) (hfile : file ≠ "") :
    formatFullFrom str
        (GoError.stacktrace message (GoError.stacktrace m c f fn l) file function line)
      = formatFullFrom
          (if m ≠ "" then
            newline (str ++ message) ++ location file line function ++ "\n" ++ "Caused by: "
          else newline (str ++ message) ++ location file line function ++ "\n")
          (GoError.stacktrace m c f fn l) := by
  rw [formatFullFrom]
  simp only [hfile, ne_eq, not_false_eq_true, if_true,
    newline_append _ _ (location_ne_empty file line function), newline_location]
  simp only [String.append_assoc]

theorem simpleStackTraceError_Error (file : String) (hfile : file ≠ "") :
    (simpleStackTraceError file).Error
      = "simpleError error message\n" ++ location file 65 "simpleStackTraceError"
          ++ "\nCaused by: errors.New error message" := by
  have hm : newline ("" ++ "simpleError error message") = "simpleError error message\n" := by
    decide
  simp only [simpleStackTraceError, Propagate, GoError.Error, formatFull,
    formatFullFrom_leaf _ _ _ _ _ _ hfile, hm]
  apply String.ext
  simp [String.data_append]

theorem outerStackTraceError_Error (file : String) (hfile : file ≠ "") :
    (outerStackTraceError file).Error
      = "outerError error message\n" ++ location file 70 "outerStackTraceError"
          ++ "\nCaused by: simpleError error message\n"
          ++ location file 65 "simpleStackTraceError"
          ++ "\nCaused by: errors.New error message" := by
  have hm : newline ("" ++ "outerError error message") = "outerError error message\n" := by
    decide
  have hm2 : newline "simpleError error message" = "simpleError error message\n" := by
    decide
  simp only [outerStackTraceError, simpleStackTraceError, Propagate, GoError.Error, formatFull,
    formatFullFrom_frame _ _ _ _ _ _ _ _ _ _ hfile,
    formatFullFrom_leaf _ _ _ _ _ _ hfile, hm]
  rw [if_pos (by decide), newline_append _ _ (by decide), hm2]
  apply String.ext
  simp [String.data_append]


theorem outerNoMessageStackTraceError_Error (file : String) (hfile : file ≠ "") :
    (outerNoMessageStackTraceError file).Error
      = location file 80 "outerNoMessageStackTraceError" ++ "\n"
          ++ location file 75 "noMessageStackTraceError"
          ++ "\nCaused by: errors.New error message" := by
  have hm : newline ("" ++ "") = "" := by decide
  simp only [outerNoMessageStackTraceError, noMessageStackTraceError, Propagate, GoError.Error,
    formatFull, formatFullFrom_frame _ _ _ _ _ _ _ _ _ _ hfile,
    formatFullFrom_leaf _ _ _ _ _ _ hfile, hm]
  rw [if_neg (by decide), String.append_empty, newline_nl_end]
  apply String.ext
  simp [String.data_append]

theorem interfaceError_Error (t : TestInterface) (file : String) (hfile : file ≠ "") :
    (t.interfaceError file).Error
      = "interface method error\n" ++ location file 116 "TestInterface.interfaceError"
          ++ "\nCaused by: errors.New error message" := by
  have hm : newline ("" ++ "interface method error") = "interface method error\n" := by
    decide
  simp only [TestInterface.interfaceError, Propagate, GoError.Error, formatFull,
    formatFullFrom_leaf _ _ _ _ _ _ hfile, hm]
  apply String.ext
  simp [String.data_append]

theorem interfaceFunctionStackTraceError_Error (file : String) (hfile : file ≠ "") :
    (interfaceFunctionStackTraceError file).Error
      = location file 85 "interfaceFunctionStackTraceError" ++ "\nCaused by: "
          ++ ((TestInterface.mk "foo").interfaceError file).Error := by
  rw [interfaceError_Error _ file hfile]
  have hm : newline ("" ++ "") = "" := by decide
  have hm2 : newline "interface method error" = "interface method error\n" := by decide
  simp only [interfaceFunctionStackTraceError, TestInterface.interfaceError, Propagate,
    GoError.Error, formatFull, formatFullFrom_frame _ _ _ _ _ _ _ _ _ _ hfile,
    formatFullFrom_leaf _ _ _ _ _ _ hfile, hm]
  rw [if_pos (by decide), newline_append _ _ (by decide), hm2]
  apply String.ext
  simp [String.data_append]

theorem propagateAll_cons (cause : GoError) (msg : String) (caller : Caller)
    (callers : List Caller) :
    propagateAll cause msg (caller :: callers)
      = GoError.stacktrace msg (propagateAll cause msg callers) caller.file caller.function
          caller.line := rfl

/-- The loop on a root cause wrapped with empty messages, from a text that is
empty or ends a line. -/
theorem formatFullFrom_propagateAll_empty (root : String) (caller : Caller)
    (callers : List Caller) (hfiles : ∀ c ∈ caller :: callers, c.file ≠ "") (str : String)
    (hstr : newline str = str) :
    formatFullFrom str (propagateAll (GoError.errorsNew root) "" (caller :: callers))
      = str ++ locationLines (caller :: callers) ++ "Caused by: " ++ root := by
  induction callers generalizing caller str with
  | nil =>
    have hfile : caller.file ≠ "" := hfiles caller (by simp)
    simp only [propagateAll, Propagate, formatFullFrom_leaf _ _ _ _ _ _ hfile,
      String.append_empty, hstr, locationLines]
    simp only [String.append_assoc]
  | cons next rest ih =>
    have hfile : caller.file ≠ "" := hfiles caller (by simp)
    have hrest : ∀ c ∈ next :: rest, c.file ≠ "" := fun c hc =>
      hfiles c (List.mem_cons_of_mem _ hc)
    have hstep := ih next hrest (str ++ location caller.file caller.line caller.function ++ "\n")
      (newline_nl_end _)
    simp only [propagateAll_cons] at hstep ⊢
    rw [formatFullFrom_frame _ _ _ _ _ _ _ _ _ _ hfile, if_neg (by simp), String.append_empty,
      hstr, hstep]
    simp only [locationLines, String.append_assoc]
theorem Error_propagateAll_empty (root : String) (caller : Caller) (callers : List Caller)
    (hfiles : ∀ c ∈ caller :: callers, c.file ≠ "") :
    (propagateAll (GoError.errorsNew root) "" (caller :: callers)).Error
      = locationLines (caller :: callers) ++ "Caused by: " ++ root := by
  have h := formatFullFrom_propagateAll_empty root caller callers hfiles "" (by decide)
  rw [String.empty_append] at h
  rw [← h]
  rfl

theorem jsonString_second (s : String) (c : Char) (cs : List Char) (hs : s.data = c :: cs)
    (hc : jsonEscapeChar c = String.singleton c) :
    (jsonString s).data.tail.head? = some c := by
  simp [jsonString, String.join_eq, String.toList, hs, hc, String.singleton]

theorem location_data (file : String) (line : Nat) (function : String) :
    ∃ cs : List Char, (location file line function).data = Char.ofNat 32 :: cs := by
  unfold location
  split
  · exact ⟨_, by simp [String.data_append]; rfl⟩
  · exact ⟨_, by simp [String.data_append]; rfl⟩

/-! Lemmas on writeJSON -/

theorem serve_ok (file : String) (connErr : Option String) :
    serve file "/ok" connErr
      = some (handleOk { w := ResponseWriter.fresh connErr, stdout := "", calls := [] }) := rfl

theorem jsonMarshal_resolved_error (err : GoError) :
    jsonMarshal (resolved (GoValue.error err)) = Except.ok (jsonString err.Error) := rfl

theorem resolved_of_not_error (obj : GoValue) (h : ∀ err, obj ≠ GoValue.error err) :
    resolved obj = obj := by
  cases obj with
  | error err => exact absurd rfl (h err)
  | string s => rfl
  | other encoding => rfl
  | unmarshalable description => rfl

/-- The two paths of `writeJSON`, by the result of encoding the resolved value. -/
theorem writeJSON_eq (fx : Effects) (obj : GoValue) (status : Int) :
    writeJSON fx obj status =
      match jsonMarshal (resolved obj) with
      | Except.error err =>
        ((afterTypeSwitch fx obj).Println "inside error 2").httpError err
          StatusInternalServerError
      | Except.ok data =>
        ((((afterTypeSwitch fx obj).HeaderSet "Content-Type" "application/json").WriteHeader
          status).Write data).1 := by
  cases obj with
  | error err =>
    simp only [writeJSON, resolved, afterTypeSwitch, jsonMarshal]
    split <;> simp_all
  | string s =>
    simp only [writeJSON, resolved, afterTypeSwitch, jsonMarshal]
    split <;> simp_all
  | other encoding =>
    simp only [writeJSON, resolved, afterTypeSwitch, jsonMarshal]
    split <;> simp_all
  | unmarshalable description =>
    simp only [writeJSON, resolved, afterTypeSwitch, jsonMarshal]

theorem afterTypeSwitch_w (fx : Effects) (obj : GoValue) : (afterTypeSwitch fx obj).w = fx.w := by
  cases obj <;> rfl

theorem afterTypeSwitch_calls (fx : Effects) (obj : GoValue) :
    (afterTypeSwitch fx obj).calls = fx.calls := by
  cases obj <;> rfl

theorem jsonString_head (s : String) : (jsonString s).toList.head? = some (Char.ofNat 34) := by
  simp [jsonString, String.singleton]

theorem writeJSON_error_calls (fx : Effects) (err : GoError) (status : Int) :
    (writeJSON fx (GoValue.error err) status).calls = fx.calls ++
      [Call.headerSet "Content-Type" "application/json", Call.writeHeader status,
       Call.write (jsonString err.Error)] := by
  rw [writeJSON_eq, jsonMarshal_resolved_error]
  simp [Effects.Write, Effects.WriteHeader, Effects.HeaderSet, afterTypeSwitch_calls]

/-- The response to an `error` value on a new response and a healthy connection. -/
theorem writeJSON_error_fresh (err : GoError) (status : Int) :
    writeJSON { w := ResponseWriter.fresh none, stdout := "", calls := [] }
        (GoValue.error err) status
      = { w := { header := [("Content-Type", "application/json")],
                 status := some status,
                 body := jsonString err.Error,
                 connErr := none },
          stdout := "inside error\n",
          calls := [Call.headerSet "Content-Type" "application/json",
                    Call.writeHeader status,
                    Call.write (jsonString err.Error)] } := by
  rw [writeJSON_eq, jsonMarshal_resolved_error]
  simp [Effects.Write, Effects.WriteHeader, Effects.HeaderSet, afterTypeSwitch,
    Effects.Println, ResponseWriter.Write, ResponseWriter.WriteHeader,
    ResponseWriter.headerSet, ResponseWriter.fresh]

/-- Two texts that open with different characters, both written as they are
in JSON, have different JSON string literals. -/
theorem jsonString_ne_of_head (s t : String) (c d : Char) (cs ds : List Char)
    (hs : s.data = c :: cs) (ht : t.data = d :: ds)
    (hc : jsonEscapeChar c = String.singleton c) (hd : jsonEscapeChar d = String.singleton d)
    (hcd : c ≠ d) : jsonString s ≠ jsonString t := by
  intro h
  have h1 := jsonString_second s c cs hs hc
  have h2 := jsonString_second t d ds ht hd
  rw [h, h2] at h1
  exact hcd (Option.some.inj h1).symm

/-! The endpoints -/

theorem serve_simpleStackTraceError (file : String) (connErr : Option String) :
    serve file "/simpleStackTraceError" connErr = some (handleSimpleStackTraceError file
      { w := ResponseWriter.fresh connErr, stdout := "", calls := [] }) := rfl

theorem serve_nestedStackTraceError (file : String) (connErr : Option String) :
    serve file "/nestedStackTraceError" connErr = some (handleNestedStackTraceError file
      { w := ResponseWriter.fresh connErr, stdout := "", calls := [] }) := rfl

theorem serve_nestedNoMessageStackTraceError (file : String) (connErr : Option String) :
    serve file "/nestedNoMessageStackTraceError" connErr
      = some (handleNestedNoMessageStackTraceError file
          { w := ResponseWriter.fresh connErr, stdout := "", calls := [] }) := rfl

theorem serve_interfaceFunctionStackTraceError (file : String) (connErr : Option String) :
    serve file "/interfaceFunctionStackTraceError" connErr
      = some (handleInterfaceFunctionStackTraceError file
          { w := ResponseWriter.fresh connErr, stdout := "", calls := [] }) := rfl

theorem serve_nativeError (file : String) (connErr : Option String) :
    serve file "/nativeError" connErr = some (handleNativeError
      { w := ResponseWriter.fresh connErr, stdout := "", calls := [] }) := rfl

set_option maxRecDepth 8192 in
/-- C1, as stated, fails: with `server.go` at `/srv/server.go` the body of
`/simpleStackTraceError` is the JSON string literal of the full format, with the
location line of the frame and `Caused by: `, and not
`"simpleError error message: errors.New error message"`, which is the `render`
of the specification and not what `Error()` returns. -/
theorem simpleStackTraceError_body_not_brief :
    (serve "/srv/server.go" "/simpleStackTraceError" none).map (fun out => out.fx.w.body)
      = some ("\"simpleError error message\\n --- at /srv/server.go:65 "
          ++ "(simpleStackTraceError) ---\\nCaused by: errors.New error message\"")
    ∧ (serve "/srv/server.go" "/simpleStackTraceError" none).map (fun out => out.fx.w.body)
      ≠ some "\"simpleError error message: errors.New error message\""
    ∧ render (simpleStackTraceError "/srv/server.go")
      = "simpleError error message: errors.New error message"
    ∧ (simpleStackTraceError "/srv/server.go").Error
      ≠ render (simpleStackTraceError "/srv/server.go") := by
  decide

/-- C1, amended: `/simpleStackTraceError` answers with status 500, the JSON
content type and, as body, the JSON string literal of the full format of one
`Propagate` with message `simpleError error message` over the root cause
`errors.New error message`: the message, a line break, the location line
` --- at file:65 (simpleStackTraceError) ---`, a line break, and
`Caused by: errors.New error message`, where `file` is the path of `server.go`
the runtime reports.  This text is never the brief
`simpleError error message: errors.New error message`. -/
theorem simpleStackTraceError_response (file : String) (hfile : file ≠ "") :
    simpleStackTraceError file
        = Propagate (GoError.errorsNew "errors.New error message") "simpleError error message"
            ⟨file, 65, "simpleStackTraceError"⟩
    ∧ (simpleStackTraceError file).Error
        = "simpleError error message\n" ++ location file 65 "simpleStackTraceError"
            ++ "\nCaused by: errors.New error message"
    ∧ (∀ fx : Effects, (handleSimpleStackTraceError file fx).fx.calls = fx.calls ++
        [Call.headerSet "Content-Type" "application/json",
         Call.writeHeader 500,
         Call.write (jsonString ("simpleError error message\n"
            ++ location file 65 "simpleStackTraceError"
            ++ "\nCaused by: errors.New error message"))])
    ∧ serve file "/simpleStackTraceError" none = some
        { fx := { w := { header := [("Content-Type", "application/json")],
                         status := some 500,
                         body := jsonString ("simpleError error message\n"
                            ++ location file 65 "simpleStackTraceError"
                            ++ "\nCaused by: errors.New error message"),
                         connErr := none },
                  stdout := "inside error\n",
                  calls := [Call.headerSet "Content-Type" "application/json",
                            Call.writeHeader 500,
                            Call.write (jsonString ("simpleError error message\n"
                              ++ location file 65 "simpleStackTraceError"
                              ++ "\nCaused by: errors.New error message"))] },
          panicked := none }
    ∧ (simpleStackTraceError file).Error
        ≠ "simpleError error message: errors.New error message" := by
  have hE := simpleStackTraceError_Error file hfile
  refine ⟨rfl, hE, ?_, ?_, ?_⟩
  · intro fx
    rw [← hE]
    exact writeJSON_error_calls fx _ _
  · rw [serve_simpleStackTraceError, ← hE]
    simp only [handleSimpleStackTraceError, writeJSON_error_fresh]
    rfl
  · rw [hE]
    intro h
    have := congrArg String.data h
    simp [String.data_append] at this

theorem simpleStackTraceError_response_witness :
    (simpleStackTraceError "/srv/server.go").Error
      = "simpleError error message\n" ++ location "/srv/server.go" 65 "simpleStackTraceError"
          ++ "\nCaused by: errors.New error message" :=
  (simpleStackTraceError_response "/srv/server.go" (by decide)).2.1

set_option maxRecDepth 8192 in
/-- C2, as stated, fails: with `server.go` at `/srv/server.go` the body of
`/nestedStackTraceError` holds, between the messages and the root cause, the
location lines of the two frames and `Caused by: `, and is not
`"outerError error message: simpleError error message: errors.New error message"`. -/
theorem nestedStackTraceError_body_not_brief :
    (serve "/srv/server.go" "/nestedStackTraceError" none).map (fun out => out.fx.w.body)
      = some ("\"outerError error message\\n --- at /srv/server.go:70 "
          ++ "(outerStackTraceError) ---\\nCaused by: simpleError error message\\n"
          ++ " --- at /srv/server.go:65 (simpleStackTraceError) ---\\n"
          ++ "Caused by: errors.New error message\"")
    ∧ (serve "/srv/server.go" "/nestedStackTraceError" none).map (fun out => out.fx.w.body)
      ≠ some
        "\"outerError error message: simpleError error message: errors.New error message\""
    ∧ render (outerStackTraceError "/srv/server.go")
      = "outerError error message: simpleError error message: errors.New error message"
    ∧ (outerStackTraceError "/srv/server.go").Error
      ≠ render (outerStackTraceError "/srv/server.go") := by
  decide

/-- C2, amended: `/nestedStackTraceError` answers with status 500, the JSON
content type and, as body, the JSON string literal of the full format of the
chain: the outer message comes first, then the inner message, then the root
cause; each message is followed by a line break and the location line of its
frame, and the inner message and the root cause are each preceded by a line
break and `Caused by: `.  This text is never the brief one, joined by `": "`. -/
theorem nestedStackTraceError_response (file : String) (hfile : file ≠ "") :
    outerStackTraceError file
        = Propagate (Propagate (GoError.errorsNew "errors.New error message")
            "simpleError error message" ⟨file, 65, "simpleStackTraceError"⟩)
            "outerError error message" ⟨file, 70, "outerStackTraceError"⟩
    ∧ (outerStackTraceError file).Error
        = "outerError error message\n" ++ location file 70 "outerStackTraceError"
            ++ "\nCaused by: simpleError error message\n"
            ++ location file 65 "simpleStackTraceError"
            ++ "\nCaused by: errors.New error message"
    ∧ (∀ fx : Effects, (handleNestedStackTraceError file fx).fx.calls = fx.calls ++
        [Call.headerSet "Content-Type" "application/json",
         Call.writeHeader 500,
         Call.write (jsonString ("outerError error message\n"
            ++ location file 70 "outerStackTraceError"
            ++ "\nCaused by: simpleError error message\n"
            ++ location file 65 "simpleStackTraceError"
            ++ "\nCaused by: errors.New error message"))])
    ∧ serve file "/nestedStackTraceError" none = some
        { fx := { w := { header := [("Content-Type", "application/json")],
                         status := some 500,
                         body := jsonString ("outerError error message\n"
                            ++ location file 70 "outerStackTraceError"
                            ++ "\nCaused by: simpleError error message\n"
                            ++ location file 65 "simpleStackTraceError"
                            ++ "\nCaused by: errors.New error message"),
                         connErr := none },
                  stdout := "inside error\n",
                  calls := [Call.headerSet "Content-Type" "application/json",
                            Call.writeHeader 500,
                            Call.write (jsonString ("outerError error message\n"
                              ++ location file 70 "outerStackTraceError"
                              ++ "\nCaused by: simpleError error message\n"
                              ++ location file 65 "simpleStackTraceError"
                              ++ "\nCaused by: errors.New error message"))] },
          panicked := none }
    ∧ (outerStackTraceError file).Error
        ≠ "outerError error message: simpleError error message: errors.New error message" := by
  have hE := outerStackTraceError_Error file hfile
  refine ⟨rfl, hE, ?_, ?_, ?_⟩
  · intro fx
    rw [← hE]
    exact writeJSON_error_calls fx _ _
  · rw [serve_nestedStackTraceError, ← hE]
    simp only [handleNestedStackTraceError, writeJSON_error_fresh]
    rfl
  · rw [hE]
    intro h
    have := congrArg String.data h
    simp [String.data_append] at this

theorem nestedStackTraceError_response_witness :
    (outerStackTraceError "/srv/server.go").Error
      = "outerError error message\n" ++ location "/srv/server.go" 70 "outerStackTraceError"
          ++ "\nCaused by: simpleError error message\n"
          ++ location "/srv/server.go" 65 "simpleStackTraceError"
          ++ "\nCaused by: errors.New error message" :=
  (nestedStackTraceError_response "/srv/server.go" (by decide)).2.1

set_option maxRecDepth 8192 in
/-- C3, as stated, fails: with `server.go` at `/srv/server.go` the bodies of
`/nestedNoMessageStackTraceError` and `/nativeError` differ; the first holds
the location lines of the two frames and `Caused by: ` before the root cause. -/
theorem nestedNoMessage_body_differs_from_native :
    (serve "/srv/server.go" "/nestedNoMessageStackTraceError" none).map
        (fun out => out.fx.w.body)
      = some ("\" --- at /srv/server.go:80 (outerNoMessageStackTraceError) ---\\n"
          ++ " --- at /srv/server.go:75 (noMessageStackTraceError) ---\\n"
          ++ "Caused by: errors.New error message\"")
    ∧ (serve "/srv/server.go" "/nativeError" none).map (fun out => out.fx.w.body)
      = some "\"errors.New error message\""
    ∧ serve "/srv/server.go" "/nestedNoMessageStackTraceError" none
      ≠ serve "/srv/server.go" "/nativeError" none := by
  decide

/-- C3, amended: `/nestedNoMessageStackTraceError` and `/nativeError` both
answer with status 500 and the JSON content type, and the body of
`/nativeError` is exactly `"errors.New error message"`; the body of
`/nestedNoMessageStackTraceError` is the JSON string literal of the location
lines of the two frames, outer first, each with its line break, followed by
`Caused by: errors.New error message`.  The two responses differ: a root
cause wrapped twice with empty messages is told apart on the wire from the
root cause alone. -/
theorem nestedNoMessage_differs_from_native (file : String) (hfile : file ≠ "") :
    (outerNoMessageStackTraceError file).Error
        = location file 80 "outerNoMessageStackTraceError" ++ "\n"
            ++ location file 75 "noMessageStackTraceError"
            ++ "\nCaused by: errors.New error message"
    ∧ nativeError.Error = "errors.New error message"
    ∧ serve file "/nestedNoMessageStackTraceError" none = some
        { fx := { w := { header := [("Content-Type", "application/json")],
                         status := some 500,
                         body := jsonString (location file 80 "outerNoMessageStackTraceError"
                            ++ "\n" ++ location file 75 "noMessageStackTraceError"
                            ++ "\nCaused by: errors.New error message"),
                         connErr := none },
                  stdout := "inside error\n",
                  calls := [Call.headerSet "Content-Type" "application/json",
                            Call.writeHeader 500,
                            Call.write (jsonString
                              (location file 80 "outerNoMessageStackTraceError"
                              ++ "\n" ++ location file 75 "noMessageStackTraceError"
                              ++ "\nCaused by: errors.New error message"))] },
          panicked := none }
    ∧ serve file "/nativeError" none = some
        { fx := { w := { header := [("Content-Type", "application/json")],
                         status := some 500,
                         body := "\"errors.New error message\"",
                         connErr := none },
                  stdout := "inside error\n",
                  calls := [Call.headerSet "Content-Type" "application/json",
                            Call.writeHeader 500,
                            Call.write "\"errors.New error message\""] },
          panicked := none }
    ∧ serve file "/nestedNoMessageStackTraceError" none ≠ serve file "/nativeError" none := by
  have hE := outerNoMessageStackTraceError_Error file hfile
  have hnested : serve file "/nestedNoMessageStackTraceError" none = some
      { fx := writeJSON { w := ResponseWriter.fresh none, stdout := "", calls := [] }
          (GoValue.error (outerNoMessageStackTraceError file)) StatusInternalServerError,
        panicked := none } := rfl
  have hnative : serve file "/nativeError" none = some
      { fx := writeJSON { w := ResponseWriter.fresh none, stdout := "", calls := [] }
          (GoValue.error nativeError) StatusInternalServerError,
        panicked := none } := rfl
  refine ⟨hE, rfl, ?_, ?_, ?_⟩
  · rw [hnested, writeJSON_error_fresh, hE]
    rfl
  · rw [serve_nativeError]
    decide
  · rw [hnested, hnative, writeJSON_error_fresh, writeJSON_error_fresh]
    intro h
    have hbody : jsonString (outerNoMessageStackTraceError file).Error
        = jsonString nativeError.Error := by
      injection h with h
      injection h with h
      injection h with h
      injection h with _ _ h
    obtain ⟨cs, hcs⟩ := location_data file 80 "outerNoMessageStackTraceError"
    refine jsonString_ne_of_head _ _ (Char.ofNat 32) (Char.ofNat 101)
      (cs ++ ("\n" ++ location file 75 "noMessageStackTraceError"
        ++ "\nCaused by: errors.New error message").data)
      "rrors.New error message".data ?_ rfl (by decide) (by decide) (by decide) hbody
    rw [hE]
    simp [String.data_append, hcs]

theorem nestedNoMessage_differs_from_native_witness :
    serve "/srv/server.go" "/nestedNoMessageStackTraceError" none
      ≠ serve "/srv/server.go" "/nativeError" none :=
  (nestedNoMessage_differs_from_native "/srv/server.go" (by decide)).2.2.2.2

/-- C4, as stated, fails: the root cause `root` wrapped once with the empty
message at line 75 of `/srv/server.go` does not render as `root`; the frame
adds its location line and `Caused by: `.  Only the `render` of the
specification gives `root`. -/
theorem empty_wrap_not_root :
    (Propagate (GoError.errorsNew "root") ""
        ⟨"/srv/server.go", 75, "noMessageStackTraceError"⟩).Error
      = " --- at /srv/server.go:75 (noMessageStackTraceError) ---\nCaused by: root"
    ∧ (Propagate (GoError.errorsNew "root") ""
        ⟨"/srv/server.go", 75, "noMessageStackTraceError"⟩).Error ≠ "root"
    ∧ render (Propagate (GoError.errorsNew "root") ""
        ⟨"/srv/server.go", 75, "noMessageStackTraceError"⟩) = "root" := by
  decide

/-- C4, amended: for every root cause and call sites with a known file,
`Error()` of the root cause wrapped by `Propagate` with the empty message is
the location line of the frame, a line break, and `Caused by: ` with the
root cause; wrapped twice it is the outer location line, the inner one, each
with its line break, and `Caused by: ` with the root cause; wrapped any
number of times, once or more, it is the location lines outermost first and
then `Caused by: ` with the root cause.  So the root cause text stands once,
at the end, and no `": "` is added between frames, but the rendering is
longer than the root cause and never equal to it. -/
theorem Error_empty_messages (root : String) (inner outer : Caller)
    (hinner : inner.file ≠ "") (houter : outer.file ≠ "") (caller : Caller)
    (callers : List Caller) (hfiles : ∀ c ∈ caller :: callers, c.file ≠ "") :
    (Propagate (GoError.errorsNew root) "" inner).Error
        = location inner.file inner.line inner.function ++ "\n" ++ "Caused by: " ++ root
    ∧ (Propagate (Propagate (GoError.errorsNew root) "" inner) "" outer).Error
        = location outer.file outer.line outer.function ++ "\n"
            ++ location inner.file inner.line inner.function ++ "\n" ++ "Caused by: " ++ root
    ∧ (propagateAll (GoError.errorsNew root) "" (caller :: callers)).Error
        = locationLines (caller :: callers) ++ "Caused by: " ++ root
    ∧ (propagateAll (GoError.errorsNew root) "" (caller :: callers)).Error ≠ root := by
  refine ⟨?_, ?_, Error_propagateAll_empty root caller callers hfiles, ?_⟩
  · have h := Error_propagateAll_empty root inner [] (by simpa using hinner)
    simpa [propagateAll, locationLines, String.append_assoc] using h
  · have h := Error_propagateAll_empty root outer [inner]
      (by intro c hc; simp at hc; rcases hc with rfl | rfl <;> assumption)
    simpa [propagateAll, locationLines, String.append_assoc] using h
  · rw [Error_propagateAll_empty root caller callers hfiles]
    intro h
    have hlen := congrArg String.length h
    simp only [String.length_append] at hlen
    have h11 : "Caused by: ".length = 11 := by decide
    omega

theorem Error_empty_messages_witness :
    (Propagate (Propagate (GoError.errorsNew "errors.New error message") ""
        ⟨"/srv/server.go", 75, "noMessageStackTraceError"⟩) ""
        ⟨"/srv/server.go", 80, "outerNoMessageStackTraceError"⟩).Error
      = location "/srv/server.go" 80 "outerNoMessageStackTraceError" ++ "\n"
          ++ location "/srv/server.go" 75 "noMessageStackTraceError" ++ "\n"
          ++ "Caused by: " ++ "errors.New error message" :=
  (Error_empty_messages "errors.New error message"
    ⟨"/srv/server.go", 75, "noMessageStackTraceError"⟩
    ⟨"/srv/server.go", 80, "outerNoMessageStackTraceError"⟩ (by decide) (by decide)
    ⟨"/srv/server.go", 75, "noMessageStackTraceError"⟩ [] (by decide)).2.1

/-- C5, as stated, fails: `root` wrapped with the message `m1` at line 65 of
`/srv/server.go` does not render as `m1: root`; after `m1` come a line break,
the location line, a line break and `Caused by: root`.  Only the `render` of
the specification gives `m1: root`. -/
theorem message_wrap_not_brief :
    (Propagate (GoError.errorsNew "root") "m1"
        ⟨"/srv/server.go", 65, "simpleStackTraceError"⟩).Error
      = "m1\n --- at /srv/server.go:65 (simpleStackTraceError) ---\nCaused by: root"
    ∧ (Propagate (GoError.errorsNew "root") "m1"
        ⟨"/srv/server.go", 65, "simpleStackTraceError"⟩).Error ≠ "m1" ++ ": " ++ "root"
    ∧ render (Propagate (GoError.errorsNew "root") "m1"
        ⟨"/srv/server.go", 65, "simpleStackTraceError"⟩) = "m1" ++ ": " ++ "root" := by
  decide

/-- C5, amended: for a non-empty root cause, non-empty messages `m1`, `m2`
without `%` and call sites with a known file, `Error()` of one wrap is `m1`
(closed by a line break unless it ends with one), the location line of the
frame, a line break, and `Caused by: ` with the root cause; `Error()` of two
wraps is the same for `m2` and the outer frame, followed by `Caused by: ` and
the rendering of the inner chain.  So `m1` comes before the root cause, and
`m2` before `m1` before the root cause, with location lines and `Caused by: `
between them in place of `": "`. -/
theorem Error_orders_messages (root m1 m2 : String) (c1 c2 : Caller) (_hroot : root ≠ "")
    (h1 : m1 ≠ "") (_h2 : m2 ≠ "") (_hverb1 : Char.ofNat 37 ∉ m1.toList)
    (_hverb2 : Char.ofNat 37 ∉ m2.toList) (hc1 : c1.file ≠ "") (hc2 : c2.file ≠ "") :
    (Propagate (GoError.errorsNew root) m1 c1).Error
        = newline m1 ++ location c1.file c1.line c1.function ++ "\n" ++ "Caused by: " ++ root
    ∧ (Propagate (Propagate (GoError.errorsNew root) m1 c1) m2 c2).Error
        = newline m2 ++ location c2.file c2.line c2.function ++ "\n" ++ "Caused by: "
            ++ (Propagate (GoError.errorsNew root) m1 c1).Error
    ∧ (newline m1 = m1 ∨ newline m1 = m1 ++ "\n")
    ∧ (newline m2 = m2 ∨ newline m2 = m2 ++ "\n") := by
  have hone : (Propagate (GoError.errorsNew root) m1 c1).Error
      = newline m1 ++ location c1.file c1.line c1.function ++ "\n" ++ "Caused by: "
          ++ root := by
    simp only [Propagate, GoError.Error, formatFull, formatFullFrom_leaf _ _ _ _ _ _ hc1,
      String.empty_append]
  refine ⟨hone, ?_, ?_, ?_⟩
  · rw [hone]
    simp only [Propagate, GoError.Error, formatFull,
      formatFullFrom_frame _ _ _ _ _ _ _ _ _ _ hc2, formatFullFrom_leaf _ _ _ _ _ _ hc1,
      String.empty_append, h1, ne_eq, not_false_eq_true, if_true]
    rw [newline_append _ _ h1]
    simp only [String.append_assoc]
  · unfold newline
    split
    · exact Or.inr rfl
    · exact Or.inl rfl
  · unfold newline
    split
    · exact Or.inr rfl
    · exact Or.inl rfl

theorem Error_orders_messages_witness :
    (Propagate (GoError.errorsNew "root") "m1"
        ⟨"/srv/server.go", 65, "simpleStackTraceError"⟩).Error
      = newline "m1" ++ location "/srv/server.go" 65 "simpleStackTraceError" ++ "\n"
          ++ "Caused by: " ++ "root" :=
  (Error_orders_messages "root" "m1" "m2" ⟨"/srv/server.go", 65, "simpleStackTraceError"⟩
    ⟨"/srv/server.go", 70, "outerStackTraceError"⟩ (by decide) (by decide) (by decide)
    (by decide) (by decide) (by decide) (by decide)).1

set_option maxRecDepth 8192 in
/-- C6, as stated, fails: with `server.go` at `/srv/server.go` the body of
`/interfaceFunctionStackTraceError` opens with the location line of the empty
outer frame and `Caused by: `; it is not
`"interface method error: errors.New error message"` and not the body the
inner chain alone produces. -/
theorem interfaceFunctionStackTraceError_body_not_brief :
    (serve "/srv/server.go" "/interfaceFunctionStackTraceError" none).map
        (fun out => out.fx.w.body)
      = some ("\" --- at /srv/server.go:85 (interfaceFunctionStackTraceError) ---\\n"
          ++ "Caused by: interface method error\\n"
          ++ " --- at /srv/server.go:116 (TestInterface.interfaceError) ---\\n"
          ++ "Caused by: errors.New error message\"")
    ∧ (serve "/srv/server.go" "/interfaceFunctionStackTraceError" none).map
        (fun out => out.fx.w.body)
      ≠ some "\"interface method error: errors.New error message\""
    ∧ (serve "/srv/server.go" "/interfaceFunctionStackTraceError" none).map
        (fun out => out.fx.w.body)
      ≠ some (jsonString ((TestInterface.mk "foo").interfaceError "/srv/server.go").Error) := by
  decide

/-- C6, amended: for `/interfaceFunctionStackTraceError` the chain is the root
cause `errors.New error message` wrapped with `interface method error` inside
`TestInterface.interfaceError` and then wrapped once more with the empty
message; the response has status 500 and the JSON content type, and its body
is the JSON string literal of the rendered chain.  The empty outer frame adds
no message, but it adds its location line, a line break and `Caused by: `
ahead of the rendering of the inner chain, so the body differs from the body
the inner chain alone produces. -/
theorem interfaceFunctionStackTraceError_response (file : String) (hfile : file ≠ "") :
    (TestInterface.mk "foo").interfaceError file
        = Propagate (GoError.errorsNew "errors.New error message") "interface method error"
            ⟨file, 116, "TestInterface.interfaceError"⟩
    ∧ interfaceFunctionStackTraceError file
        = Propagate ((TestInterface.mk "foo").interfaceError file) ""
            ⟨file, 85, "interfaceFunctionStackTraceError"⟩
    ∧ ((TestInterface.mk "foo").interfaceError file).Error
        = "interface method error\n" ++ location file 116 "TestInterface.interfaceError"
            ++ "\nCaused by: errors.New error message"
    ∧ (interfaceFunctionStackTraceError file).Error
        = location file 85 "interfaceFunctionStackTraceError" ++ "\nCaused by: "
            ++ ((TestInterface.mk "foo").interfaceError file).Error
    ∧ serve file "/interfaceFunctionStackTraceError" none = some
        { fx := { w := { header := [("Content-Type", "application/json")],
                         status := some 500,
                         body := jsonString (location file 85 "interfaceFunctionStackTraceError"
                            ++ "\nCaused by: "
                            ++ ((TestInterface.mk "foo").interfaceError file).Error),
                         connErr := none },
                  stdout := "inside error\n",
                  calls := [Call.headerSet "Content-Type" "application/json",
                            Call.writeHeader 500,
                            Call.write (jsonString
                              (location file 85 "interfaceFunctionStackTraceError"
                              ++ "\nCaused by: "
                              ++ ((TestInterface.mk "foo").interfaceError file).Error))] },
          panicked := none }
    ∧ jsonString (interfaceFunctionStackTraceError file).Error
        ≠ jsonString ((TestInterface.mk "foo").interfaceError file).Error := by
  have hI := interfaceError_Error (TestInterface.mk "foo") file hfile
  have hE := interfaceFunctionStackTraceError_Error file hfile
  refine ⟨rfl, rfl, hI, hE, ?_, ?_⟩
  · rw [serve_interfaceFunctionStackTraceError, ← hE]
    simp only [handleInterfaceFunctionStackTraceError, writeJSON_error_fresh]
    rfl
  · obtain ⟨cs, hcs⟩ := location_data file 85 "interfaceFunctionStackTraceError"
    refine jsonString_ne_of_head _ _ (Char.ofNat 32) (Char.ofNat 105)
      (cs ++ ("\nCaused by: " ++ ((TestInterface.mk "foo").interfaceError file).Error).data)
      ("nterface method error\n" ++ location file 116 "TestInterface.interfaceError"
        ++ "\nCaused by: errors.New error message").data ?_ ?_ (by decide) (by decide)
      (by decide)
    · rw [hE]
      simp [String.data_append, hcs]
    · rw [hI]
      simp [String.data_append]

theorem interfaceFunctionStackTraceError_response_witness :
    (interfaceFunctionStackTraceError "/srv/server.go").Error
      = location "/srv/server.go" 85 "interfaceFunctionStackTraceError" ++ "\nCaused by: "
          ++ ((TestInterface.mk "foo").interfaceError "/srv/server.go").Error :=
  (interfaceFunctionStackTraceError_response "/srv/server.go" (by decide)).2.2.2.1

/-! writeJSON on any value -/

/-- C7: when the resolved value encodes to `data`, `writeJSON` makes exactly
three calls on the response: it sets `Content-Type` to `application/json`,
writes the status `s`, and writes `data` as the body.  So the content type is
the JSON one, a response that had no status yet has status `s`, and a healthy
connection receives `data`.  For an `error` value `data` is the JSON string
literal of `Error()`, which opens with a double quote; for any other value it
is the encoding of the value itself.  `/ok` answers 200 with the body
`"hello, world!"`. -/
theorem writeJSON_success (fx : Effects) (obj : GoValue) (s : Int) (data : String)
    (h : jsonMarshal (resolved obj) = Except.ok data) :
    (writeJSON fx obj s).calls = fx.calls ++
        [Call.headerSet "Content-Type" "application/json", Call.writeHeader s, Call.write data]
    ∧ (writeJSON fx obj s).w
        = (((fx.w.headerSet "Content-Type" "application/json").WriteHeader s).Write data).1
    ∧ (writeJSON fx obj s).w.headerGet "Content-Type" = some "application/json"
    ∧ (fx.w.status = none → (writeJSON fx obj s).w.status = some s)
    ∧ (fx.w.connErr = none → (writeJSON fx obj s).w.body = fx.w.body ++ data)
    ∧ (∀ err : GoError, obj = GoValue.error err →
        data = jsonString err.Error ∧ data.toList.head? = some (Char.ofNat 34))
    ∧ ((∀ err : GoError, obj ≠ GoValue.error err) → jsonMarshal obj = Except.ok data)
    ∧ (∀ file : String, serve file "/ok" none = some
        { fx := { w := { header := [("Content-Type", "application/json")],
                         status := some 200,
                         body := "\"hello, world!\"",
                         connErr := none },
                  stdout := "",
                  calls := [Call.headerSet "Content-Type" "application/json",
                            Call.writeHeader 200,
                            Call.write "\"hello, world!\""] },
          panicked := none }) := by
  have hw : writeJSON fx obj s
      = ((((afterTypeSwitch fx obj).HeaderSet "Content-Type" "application/json").WriteHeader
          s).Write data).1 := by
    rw [writeJSON_eq, h]
  refine ⟨?_, ?_, ?_, ?_, ?_, ?_, ?_, fun file => ?_⟩
  · simp [hw, Effects.Write, Effects.WriteHeader, Effects.HeaderSet, afterTypeSwitch_calls]
  · simp [hw, Effects.Write, Effects.WriteHeader, Effects.HeaderSet, afterTypeSwitch_w]
  · rw [hw]
    simp only [Effects.Write, Effects.WriteHeader, Effects.HeaderSet, afterTypeSwitch_w,
      ResponseWriter.Write, ResponseWriter.WriteHeader, ResponseWriter.headerSet,
      ResponseWriter.headerGet]
    cases fx.w.status <;> cases fx.w.connErr <;> simp [List.lookup]
  · intro hs
    rw [hw]
    simp only [Effects.Write, Effects.WriteHeader, Effects.HeaderSet, afterTypeSwitch_w,
      ResponseWriter.Write, ResponseWriter.WriteHeader, ResponseWriter.headerSet, hs]
    cases fx.w.connErr <;> rfl
  · intro hc
    rw [hw]
    simp only [Effects.Write, Effects.WriteHeader, Effects.HeaderSet, afterTypeSwitch_w,
      ResponseWriter.Write, ResponseWriter.WriteHeader, ResponseWriter.headerSet]
    cases fx.w.status <;> simp [hc]
  · intro err herr
    subst herr
    rw [jsonMarshal_resolved_error] at h
    injection h with h
    subst h
    exact ⟨rfl, jsonString_head _⟩
  · intro hne
    rw [← resolved_of_not_error obj hne]
    exact h
  · rw [serve_ok]
    decide

theorem writeJSON_success_witness :
    (writeJSON { w := ResponseWriter.fresh none, stdout := "", calls := [] }
        (GoValue.error nativeError) 500).calls
      = [] ++ [Call.headerSet "Content-Type" "application/json", Call.writeHeader 500,
          Call.write "\"errors.New error message\""] :=
  (writeJSON_success { w := ResponseWriter.fresh none, stdout := "", calls := [] }
    (GoValue.error nativeError) 500 "\"errors.New error message\""
    (congrArg Except.ok (by decide))).1

/-- C8: when encoding the resolved value fails with description `e`,
`writeJSON` makes one call on the response, `http.Error` with `e` and status
500, and returns: it makes no call that sets a header, writes the requested
status or writes a body.  The content type is the plain-text one, a response
that had no status yet has status 500, a healthy connection receives the line
`e`, and the outcome is the same for every requested status. -/
theorem writeJSON_marshal_failure (fx : Effects) (obj : GoValue) (s : Int) (e : String)
    (h : jsonMarshal (resolved obj) = Except.error e) :
    (writeJSON fx obj s).calls = fx.calls ++ [Call.httpError e 500]
    ∧ (writeJSON fx obj s).w = httpError fx.w e 500
    ∧ (writeJSON fx obj s).stdout = fx.stdout ++ "inside error 2" ++ "\n"
    ∧ (fx.w.status = none → (writeJSON fx obj s).w.status = some 500)
    ∧ (writeJSON fx obj s).w.headerGet "Content-Type" = some "text/plain; charset=utf-8"
    ∧ (writeJSON fx obj s).w.headerGet "Content-Type" ≠ some "application/json"
    ∧ (fx.w.connErr = none → (writeJSON fx obj s).w.body = fx.w.body ++ (e ++ "\n"))
    ∧ (∀ (key value : String), Call.headerSet key value ∉ ((writeJSON fx obj s).calls.drop fx.calls.length))
    ∧ (∀ code : Int, Call.writeHeader code ∉ ((writeJSON fx obj s).calls.drop fx.calls.length))
    ∧ (∀ data : String, Call.write data ∉ ((writeJSON fx obj s).calls.drop fx.calls.length))
    ∧ (∀ s' : Int, writeJSON fx obj s' = writeJSON fx obj s) := by
  have hobj : obj = GoValue.unmarshalable e := by
    cases obj with
    | error err => simp [resolved, jsonMarshal] at h
    | string str => simp [resolved, jsonMarshal] at h
    | other encoding => simp [resolved, jsonMarshal] at h
    | unmarshalable description =>
      simp only [resolved, jsonMarshal] at h
      injection h with h
      rw [h]
  subst hobj
  have hw : ∀ s' : Int, writeJSON fx (GoValue.unmarshalable e) s'
      = (fx.Println "inside error 2").httpError e StatusInternalServerError := by
    intro s'
    rw [writeJSON_eq, h]
    rfl
  have hct : (httpError fx.w e 500).headerGet "Content-Type"
      = some "text/plain; charset=utf-8" := by
    simp only [httpError, ResponseWriter.Write, ResponseWriter.WriteHeader,
      ResponseWriter.headerSet, ResponseWriter.headerGet]
    cases fx.w.status <;> cases fx.w.connErr <;> simp [List.lookup]
  have hcalls : (writeJSON fx (GoValue.unmarshalable e) s).calls
      = fx.calls ++ [Call.httpError e 500] := by
    rw [hw]; rfl
  refine ⟨hcalls, by rw [hw]; rfl, by rw [hw]; rfl, ?_, ?_, ?_, ?_, ?_, ?_, ?_, ?_⟩
  · intro hs
    rw [hw]
    simp only [Effects.httpError, Effects.Println, httpError, ResponseWriter.Write,
      ResponseWriter.WriteHeader, ResponseWriter.headerSet, hs, StatusInternalServerError]
    cases fx.w.connErr <;> rfl
  · rw [hw]
    exact hct
  · rw [hw]
    show (httpError fx.w e 500).headerGet "Content-Type" ≠ some "application/json"
    rw [hct]
    decide
  · intro hc
    rw [hw]
    simp only [Effects.httpError, Effects.Println, httpError, ResponseWriter.Write,
      ResponseWriter.WriteHeader, ResponseWriter.headerSet, StatusInternalServerError]
    cases fx.w.status <;> simp [hc]
  · intro key value
    simp [hcalls]
  · intro code
    simp [hcalls]
  · intro data
    simp [hcalls]
  · intro s'
    rw [hw, hw]

theorem writeJSON_marshal_failure_witness :
    (writeJSON { w := ResponseWriter.fresh none, stdout := "", calls := [] }
        (GoValue.unmarshalable "json: unsupported type: chan int") 200).w
      = httpError (ResponseWriter.fresh none) "json: unsupported type: chan int" 500 :=
  (writeJSON_marshal_failure { w := ResponseWriter.fresh none, stdout := "", calls := [] }
    (GoValue.unmarshalable "json: unsupported type: chan int") 200
    "json: unsupported type: chan int" rfl).2.1

/-- C9: on a connection that rejects the write, `/ok` sends its content type
and status 200 and then reports nothing: standard output stays empty and
the calls are those of a run whose write succeeds.  The same holds for every
string value and status: after a failed write of a new response, standard
output is still empty. -/
theorem writeJSON_write_failure_unreported :
    (∀ file : String, serve file "/ok" (some "write: broken pipe") = some
        { fx := { w := { header := [("Content-Type", "application/json")],
                         status := some 200,
                         body := "",
                         connErr := some "write: broken pipe" },
                  stdout := "",
                  calls := [Call.headerSet "Content-Type" "application/json",
                            Call.writeHeader 200,
                            Call.write "\"hello, world!\""] },
          panicked := none })
    ∧ (∀ file : String,
        (serve file "/ok" (some "write: broken pipe")).map (fun out => out.fx.stdout)
          = (serve file "/ok" none).map (fun out => out.fx.stdout))
    ∧ (∀ (e value : String) (status : Int),
        writeJSON { w := ResponseWriter.fresh (some e), stdout := "", calls := [] }
            (GoValue.string value) status
          = { w := { header := [("Content-Type", "application/json")],
                     status := some status,
                     body := "",
                     connErr := some e },
              stdout := "",
              calls := [Call.headerSet "Content-Type" "application/json",
                        Call.writeHeader status,
                        Call.write (jsonString value)] }) := by
  refine ⟨fun file => ?_, fun file => ?_, ?_⟩
  · rw [serve_ok]
    decide
  · rw [serve_ok, serve_ok]
    decide
  · intro e value status
    rfl

/-- C10: the `/panic` handler panics and touches nothing: on any effects it
leaves the response writer, standard output and the record of calls as they
were and lets the panic escape.  Served on a new response, no call was made,
no status or header is set and the body is empty, so whatever it serves does
not contain the root cause text. -/
theorem panic_handler_writes_nothing :
    (∀ fx : Effects,
        handlePanic fx = { fx := fx, panicked := some "panicking in the server" })
    ∧ (∀ (file : String) (connErr : Option String), serve file "/panic" connErr = some
        { fx := { w := { header := [], status := none, body := "", connErr := connErr },
                  stdout := "",
                  calls := [] },
          panicked := some "panicking in the server" })
    ∧ (∀ (file : String) (connErr : Option String) (out : Outcome),
        serve file "/panic" connErr = some out →
        ¬ ("errors.New error message".toList <:+: out.fx.w.body.toList)) := by
  have hserve : ∀ (file : String) (connErr : Option String), serve file "/panic" connErr = some
      { fx := { w := { header := [], status := none, body := "", connErr := connErr },
                stdout := "",
                calls := [] },
        panicked := some "panicking in the server" } := fun _ _ => rfl
  refine ⟨fun _ => rfl, hserve, ?_⟩
  intro file connErr out hout
  rw [hserve] at hout
  injection hout with hout
  subst hout
  simp

end ExceptionServer

